import Mathlib

/-!
Shallow embedding of the MAX31856 thermocouple driver (`max31856.py`).

Modelling conventions:
* Register bytes and addresses are `ℕ`; bitwise `|`, `&`, `<<`, `>>` of the
  Python source become `|||`, `&&&`, `<<<`, `>>>` on `ℕ`.
* The SPI transport and the chip-select pin are external collaborators; we
  record their effects as a trace of bus events on a `DeviceState`.  A read
  transaction is parameterised by `wire : List ℕ`, the bytes the chip puts on
  the bus for that transaction.
* Python's `/` is exact binary floating-point division; halving an integer (a
  dyadic rational below 2^53) is exact in IEEE-754 doubles, as is multiplying
  an integer of magnitude below 2^20 by the exact constants 0.015625 (1/64)
  and 0.0078125 (1/128).  Consequently the driver's float arithmetic is
  modelled exactly by `ℚ` on the inputs these claims range over.
-/

/-! ### Register addresses (module-level constants in the source) -/

def CONFIG_REGISTER_0 : ℕ := 0x00

def CONFIG_REGISTER_1 : ℕ := 0x01

def COLD_JUNCTION_T_OFFSET_REGISTER : ℕ := 0x09

def THERMOCOUPLE_T_REGISTER : ℕ := 0x0C

def FAULT_STATUS_REGISTER : ℕ := 0x0F

/-! ### `class ThermoCoupleType` -/

namespace ThermoCoupleType

def B_Type : ℕ := 0b0000

def E_Type : ℕ := 0b0001

def J_Type : ℕ := 0b0010

def K_Type : ℕ := 0b0011

def N_Type : ℕ := 0b0100

def R_Type : ℕ := 0b0101

def S_Type : ℕ := 0b0110

def T_Type : ℕ := 0b0111

end ThermoCoupleType

/-! ### `class FaultError` (bit positions in the fault status byte) -/

namespace FaultError

def THERMOCOUPLE_OPEN_CIRCUIT : ℕ := 0

def OVER_UNDER_VOLTAGE : ℕ := 1

def THERMOCOUPLE_LOW_FAULT : ℕ := 2

def THERMOCOUPLE_HIGH_FAULT : ℕ := 3

def COLD_JUNCTION_LOW_FAULT : ℕ := 4

def COLD_JUNCTION_HIGH_FAULT : ℕ := 5

def THERMOCOUPLE_OUT_OF_RANGE : ℕ := 6

def COLD_JUNCTION_OUT_OF_RANGE : ℕ := 7

end FaultError

/-! ### Bus transport model

`self.chip_select.value(v)`, `self.spi_handle.write(data)` and
`self.spi_handle.read(n)` are the three transport primitives the driver uses;
each is recorded as one event. -/

inductive BusEvent
  | csSet (v : ℕ)
  | spiWrite (data : List ℕ)
  | spiRead (nbytes : ℕ)
deriving DecidableEq

structure DeviceState where
  cs : ℕ
  trace : List BusEvent
deriving DecidableEq

/-- `self.chip_select.value(v)` -/
def csValue (s : DeviceState) (v : ℕ) : DeviceState :=
  { cs := v, trace := s.trace ++ [BusEvent.csSet v] }

/-- `self.spi_handle.write(bytes(data))` -/
def spiWriteBytes (s : DeviceState) (data : List ℕ) : DeviceState :=
  { s with trace := s.trace ++ [BusEvent.spiWrite data] }

/-- `self.spi_handle.read(nbytes)`: the returned bytes are whatever the chip
drives on the bus, supplied here as `wire`. -/
def spiReadBytes (s : DeviceState) (nbytes : ℕ) (wire : List ℕ) :
    DeviceState × List ℕ :=
  ({ s with trace := s.trace ++ [BusEvent.spiRead nbytes] }, wire.take nbytes)

/-! ### Register transactions (`set_register`, `get_register`) -/

/-- `MAX31856.set_register(register, value)`. -/
def set_register (s : DeviceState) (register value : ℕ) : DeviceState :=
  let s := csValue s 0
  let s := spiWriteBytes s [register ||| 0x80, value]
  csValue s 1

/-- `MAX31856.get_register(register, nbytes)`. -/
def get_register (s : DeviceState) (wire : List ℕ) (register nbytes : ℕ) :
    DeviceState × List ℕ :=
  let s := csValue s 0
  let s := spiWriteBytes s [register]
  let (s, data) := spiReadBytes s nbytes wire
  (csValue s 1, data)

/-! ### Register codec -/

/-- `MAX31856.build_config_register_0(one_shot, filter50Hz)`.
Source defaults are `one_shot=False, filter50Hz=True`; call sites below pass
both arguments explicitly. -/
def build_config_register_0 (one_shot filter50Hz : Bool) : ℕ :=
  let cr0 := if filter50Hz then 1 <<< 0 else 0
  if one_shot then cr0 ||| (1 <<< 6) else cr0 ||| (1 <<< 7)

/-- The `while avg_sel > 1: avg_sel = avg_sel / 2; level += 1` loop of
`build_config_register_1`, returning the final `level`.  `avg_sel` is a
Python float after the first division, halved exactly, hence `ℚ`. -/
def halvings (avg_sel : ℚ) : ℕ :=
  if h : avg_sel > 1 then halvings (avg_sel / 2) + 1 else 0
termination_by (Int.ceil avg_sel).toNat
decreasing_by
  have h1 : (1 : ℤ) < Int.ceil avg_sel := Int.lt_ceil.mpr (by exact_mod_cast h)
  have h2 : Int.ceil (avg_sel / 2) ≤ Int.ceil avg_sel - 1 := by
    apply Int.ceil_le.mpr
    have hq : avg_sel ≤ (Int.ceil avg_sel : ℚ) := Int.le_ceil avg_sel
    push_cast
    have : (2 : ℚ) ≤ (Int.ceil avg_sel : ℚ) := by exact_mod_cast h1
    linarith
  omega

/-- `MAX31856.build_config_register_1(avg_sel, tc_type)`.  The averaging
count is passed as an integer at the call sites. -/
def build_config_register_1 (avg_sel tc_type : ℕ) : ℕ :=
  let level := halvings (avg_sel : ℚ)
  tc_type ||| (level <<< 4)

/-! ### Mode controller and constructor -/

/-- `MAX31856.__init__`: chip-select pin constructed high (`value=1`), SPI
handle opened (external collaborator), then one write of Configuration
Register 1.  The trace starts empty at construction. -/
def max31856_init (avgsel tc_type : ℕ) : DeviceState :=
  let s : DeviceState := { cs := 1, trace := [] }
  set_register s CONFIG_REGISTER_1 (build_config_register_1 avgsel tc_type)

/-- `MAX31856.setup_drdy_interrupt(drdy, on_event)`.  The DRDY pin
configuration and IRQ registration are GPIO-collaborator effects with no bus
traffic; the bus-visible behaviour is the dummy read then the CR0 write
(`one_shot=False`, default `filter50Hz=True`). -/
def setup_drdy_interrupt (s : DeviceState) (wire : List ℕ) : DeviceState :=
  let (s, _data) := get_register s wire THERMOCOUPLE_T_REGISTER 2
  set_register s CONFIG_REGISTER_0 (build_config_register_0 false true)

/-- `MAX31856.request_one_shot_sample()`: writes CR0 with `one_shot=True`
(default `filter50Hz=True`). -/
def request_one_shot_sample (s : DeviceState) : DeviceState :=
  set_register s CONFIG_REGISTER_0 (build_config_register_0 true true)

/-! ### Temperature decoders -/

/-- `MAX31856.read_cold_junction_temperature()`.  `wire` is the 3-byte
response `[offset, msb, lsb]`; indexing mirrors `rxdata[0..2]` (the claims
only cover exact-length responses). -/
def read_cold_junction_temperature (s : DeviceState) (wire : List ℕ) :
    DeviceState × ℚ :=
  let (s, rxdata) := get_register s wire COLD_JUNCTION_T_OFFSET_REGISTER 3
  let offset := rxdata.getD 0 0
  let junc_msb := rxdata.getD 1 0
  let junc_lsb := rxdata.getD 2 0
  let temp : ℤ := (((junc_msb <<< 8) ||| junc_lsb) >>> 2 : ℕ)
  let temp : ℤ := (offset : ℤ) + temp
  let temp : ℤ := if junc_msb &&& 0x80 ≠ 0 then temp - 0x4000 else temp
  (s, (temp : ℚ) * 0.015625)

/-- `MAX31856.read_thermocouple_temperature()`.  `wire` is the 3-byte
response `[high, mid, low]`. -/
def read_thermocouple_temperature (s : DeviceState) (wire : List ℕ) :
    DeviceState × ℚ :=
  let (s, out) := get_register s wire THERMOCOUPLE_T_REGISTER 3
  let tc_highByte := out.getD 0 0
  let tc_middleByte := out.getD 1 0
  let tc_lowByte := out.getD 2 0
  let temp : ℤ :=
    (((tc_highByte <<< 16) ||| (tc_middleByte <<< 8) ||| tc_lowByte) >>> 5 : ℕ)
  let temp : ℤ := if tc_highByte &&& 0x80 ≠ 0 then temp - 0x80000 else temp
  (s, (temp : ℚ) * 0.0078125)

/-- `MAX31856.get_thermocouple_health_status()`: reads the fault status
register and returns the raw byte. -/
def get_thermocouple_health_status (s : DeviceState) (wire : List ℕ) :
    DeviceState × ℕ :=
  let (s, data) := get_register s wire FAULT_STATUS_REGISTER 1
  (s, data.getD 0 0)

/-- Fault decoding as documented on `get_thermocouple_health_status`: fault
`k` is present in status byte `b` when `b & (1 << k)` is nonzero. -/
def faultBit (b k : ℕ) : Bool :=
  b &&& (1 <<< k) != 0

/-! ### Arithmetic facts about the halving loop -/

lemma halvings_of_le_one {q : ℚ} (h : q ≤ 1) : halvings q = 0 := by
  rw [halvings, dif_neg (not_lt.mpr h)]

lemma halvings_of_one_lt {q : ℚ} (h : 1 < q) :
    halvings q = halvings (q / 2) + 1 := by
  rw [halvings, dif_pos h]

lemma halvings_two_pow (k : ℕ) : halvings ((2 : ℚ) ^ k) = k := by
  induction k with
  | zero => exact halvings_of_le_one (by norm_num)
  | succ n ih =>
    have h : (1 : ℚ) < 2 ^ (n + 1) := one_lt_pow₀ (by norm_num) (by omega)
    have h2 : (2 : ℚ) ^ (n + 1) / 2 = 2 ^ n := by ring
    rw [halvings_of_one_lt h, h2, ih]

lemma ceil_half_toNat {q : ℚ} (h : 1 < q) :
    (Int.ceil (q / 2)).toNat = ((Int.ceil q).toNat + 1) / 2 := by
  have hc : (1 : ℤ) < Int.ceil q := Int.lt_ceil.mpr (by exact_mod_cast h)
  have hub : q ≤ (Int.ceil q : ℚ) := Int.le_ceil q
  have hlb : (Int.ceil q : ℚ) - 1 < q := by
    have := Int.ceil_lt_add_one q
    linarith
  rcases Int.even_or_odd (Int.ceil q) with ⟨t, ht⟩ | ⟨t, ht⟩
  · have hceil : Int.ceil (q / 2) = t := by
      rw [Int.ceil_eq_iff]
      have h1 : ((t : ℤ) : ℚ) + ((t : ℤ) : ℚ) = ((Int.ceil q : ℤ) : ℚ) := by
        exact_mod_cast congrArg (fun z : ℤ => (z : ℚ)) ht.symm
      constructor
      · push_cast at h1 ⊢
        linarith
      · push_cast at h1 ⊢
        linarith
    rw [hceil]
    omega
  · have hceil : Int.ceil (q / 2) = t + 1 := by
      rw [Int.ceil_eq_iff]
      have h1 : 2 * ((t : ℤ) : ℚ) + 1 = ((Int.ceil q : ℤ) : ℚ) := by
        exact_mod_cast congrArg (fun z : ℤ => (z : ℚ)) ht.symm
      constructor
      · push_cast at h1 ⊢
        linarith
      · push_cast at h1 ⊢
        linarith
    rw [hceil]
    omega

lemma halvings_eq_clog (q : ℚ) : halvings q = Nat.clog 2 (Int.ceil q).toNat := by
  have H : ∀ m : ℕ, ∀ r : ℚ, (Int.ceil r).toNat = m → halvings r = Nat.clog 2 m := by
    intro m
    induction m using Nat.strong_induction_on with
    | _ m ih =>
      intro r hm
      by_cases h : 1 < r
      · have hc : (1 : ℤ) < Int.ceil r := Int.lt_ceil.mpr (by exact_mod_cast h)
        have hm2 : 2 ≤ m := by omega
        have key : (Int.ceil (r / 2)).toNat = (m + 1) / 2 := by
          rw [ceil_half_toNat h, hm]
        rw [halvings_of_one_lt h, ih ((m + 1) / 2) (by omega) (r / 2) key,
          Nat.clog_of_two_le (by norm_num) hm2]
        norm_num
      · have hr : r ≤ 1 := not_lt.mp h
        have hle : Int.ceil r ≤ 1 := Int.ceil_le.mpr (by exact_mod_cast hr)
        rw [halvings_of_le_one hr, Nat.clog_of_right_le_one (by omega)]
  exact H _ q rfl

lemma halvings_natCast (n : ℕ) : halvings (n : ℚ) = Nat.clog 2 n := by
  rw [halvings_eq_clog]
  norm_num

lemma halvings_three : halvings (3 : ℚ) = 2 := by
  have h0 : halvings ((3 : ℚ) / 2 / 2) = 0 := halvings_of_le_one (by norm_num)
  have h1 : halvings ((3 : ℚ) / 2) = 1 := by
    rw [halvings_of_one_lt (by norm_num), h0]
  rw [halvings_of_one_lt (by norm_num), h1]

lemma halvings_two : halvings (2 : ℚ) = 1 := by
  rw [halvings_of_one_lt (by norm_num)]
  norm_num [halvings_of_le_one]

lemma build_config_register_1_eq (n t : ℕ) :
    build_config_register_1 n t = t ||| (Nat.clog 2 n <<< 4) := by
  simp only [build_config_register_1, halvings_natCast]

lemma build_config_register_1_at_two :
    build_config_register_1 2 ThermoCoupleType.K_Type = 0x13 := by
  have h : ((2 : ℕ) : ℚ) = (2 : ℚ) := by norm_num
  simp only [build_config_register_1, ThermoCoupleType.K_Type, h, halvings_two]
  decide

lemma build_config_register_1_at_three :
    build_config_register_1 3 ThermoCoupleType.K_Type = 0x23 := by
  have h : ((3 : ℕ) : ℚ) = (3 : ℚ) := by norm_num
  simp only [build_config_register_1, ThermoCoupleType.K_Type, h, halvings_three]
  decide

lemma build_config_register_1_at_four :
    build_config_register_1 4 ThermoCoupleType.K_Type = 0x23 := by
  have h : ((4 : ℕ) : ℚ) = (2 : ℚ) ^ 2 := by norm_num
  simp only [build_config_register_1, ThermoCoupleType.K_Type, h, halvings_two_pow]
  decide

/-! ### Claims -/

/-- Claim C1: for every 3-byte response `[offset, msb, lsb]`,
`read_cold_junction_temperature` returns
`((((msb << 8) | lsb) >> 2) + offset - (0x4000 if bit 0x80 of msb is set else 0)) * 0.015625`,
the unsigned offset byte being added before the two's-complement sign
correction; in particular `[0x00, 0xE7, 0x00]` decodes to -25.0 °C and
`[0x00, 0x19, 0x00]` decodes to 25.0 °C. -/
theorem C1_cold_junction_decode :
    (∀ (s : DeviceState) (offset msb lsb : ℕ),
        offset < 256 → msb < 256 → lsb < 256 →
        (read_cold_junction_temperature s [offset, msb, lsb]).2 =
          (((((((msb <<< 8) ||| lsb) >>> 2 : ℕ) : ℤ) + (offset : ℤ) -
              (if msb &&& 0x80 ≠ 0 then (0x4000 : ℤ) else 0) : ℤ) : ℚ)) *
            0.015625) ∧
    (∀ s : DeviceState,
        (read_cold_junction_temperature s [0x00, 0xE7, 0x00]).2 = -25) ∧
    (∀ s : DeviceState,
        (read_cold_junction_temperature s [0x00, 0x19, 0x00]).2 = 25) := by
  refine ⟨?_, ?_, ?_⟩
  · intro s offset msb lsb _ _ _
    simp only [read_cold_junction_temperature, get_register, spiReadBytes,
      spiWriteBytes, csValue, List.take, List.getD_cons_zero,
      List.getD_cons_succ]
    split_ifs with h
    · push_cast
      ring
    · push_cast
      ring
  · intro s
    simp only [read_cold_junction_temperature, get_register, spiReadBytes,
      spiWriteBytes, csValue, List.take, List.getD_cons_zero,
      List.getD_cons_succ]
    norm_num [show ((231 : ℕ) &&& 128) = 128 from by decide,
      show (((231 : ℕ) <<< 8 ||| 0) >>> 2) = 14784 from by decide,
      show ((231 : ℕ) <<< 8 >>> 2) = 14784 from by decide]
  · intro s
    simp only [read_cold_junction_temperature, get_register, spiReadBytes,
      spiWriteBytes, csValue, List.take, List.getD_cons_zero,
      List.getD_cons_succ]
    norm_num [show ((25 : ℕ) &&& 128) = 0 from by decide,
      show (((25 : ℕ) <<< 8 ||| 0) >>> 2) = 1600 from by decide,
      show ((25 : ℕ) <<< 8 >>> 2) = 1600 from by decide]

/-- Witness for C1: the universal part instantiated at the concrete response
`[0x00, 0xE7, 0x00]`. -/
theorem C1_cold_junction_decode_witness :
    (read_cold_junction_temperature ⟨1, []⟩ [0x00, 0xE7, 0x00]).2 =
      (((((((0xE7 <<< 8) ||| 0x00) >>> 2 : ℕ) : ℤ) + ((0x00 : ℕ) : ℤ) -
          (if (0xE7 : ℕ) &&& 0x80 ≠ 0 then (0x4000 : ℤ) else 0) : ℤ) : ℚ)) *
        0.015625 :=
  C1_cold_junction_decode.1 ⟨1, []⟩ 0x00 0xE7 0x00 (by norm_num) (by norm_num)
    (by norm_num)

/-- Claim C2: for every 3-byte response `[high, mid, low]`,
`read_thermocouple_temperature` returns
`((((high << 16) | (mid << 8) | low) >> 5) - (0x80000 if bit 0x80 of high is set else 0)) * 0.0078125`;
in particular `[0x01, 0x90, 0x00]` decodes to 25.0 °C. -/
theorem C2_thermocouple_decode :
    (∀ (s : DeviceState) (high mid low : ℕ),
        high < 256 → mid < 256 → low < 256 →
        (read_thermocouple_temperature s [high, mid, low]).2 =
          (((((((high <<< 16) ||| (mid <<< 8) ||| low) >>> 5 : ℕ) : ℤ) -
              (if high &&& 0x80 ≠ 0 then (0x80000 : ℤ) else 0) : ℤ) : ℚ)) *
            0.0078125) ∧
    (∀ s : DeviceState,
        (read_thermocouple_temperature s [0x01, 0x90, 0x00]).2 = 25) := by
  refine ⟨?_, ?_⟩
  · intro s high mid low _ _ _
    simp only [read_thermocouple_temperature, get_register, spiReadBytes,
      spiWriteBytes, csValue, List.take, List.getD_cons_zero,
      List.getD_cons_succ]
    split_ifs with h
    · push_cast
      ring
    · push_cast
      ring
  · intro s
    simp only [read_thermocouple_temperature, get_register, spiReadBytes,
      spiWriteBytes, csValue, List.take, List.getD_cons_zero,
      List.getD_cons_succ]
    norm_num [show ((1 : ℕ) &&& 128) = 0 from by decide,
      show (((1 : ℕ) <<< 16 ||| 144 <<< 8 ||| 0) >>> 5) = 3200 from by decide,
      show (((1 : ℕ) <<< 16 ||| 144 <<< 8) >>> 5) = 3200 from by decide]

/-- Witness for C2: the universal part instantiated at the concrete response
`[0x01, 0x90, 0x00]`. -/
theorem C2_thermocouple_decode_witness :
    (read_thermocouple_temperature ⟨1, []⟩ [0x01, 0x90, 0x00]).2 =
      (((((((0x01 <<< 16) ||| (0x90 <<< 8) ||| 0x00) >>> 5 : ℕ) : ℤ) -
          (if (0x01 : ℕ) &&& 0x80 ≠ 0 then (0x80000 : ℤ) else 0) : ℤ) : ℚ)) *
        0.0078125 :=
  C2_thermocouple_decode.1 ⟨1, []⟩ 0x01 0x90 0x00 (by norm_num) (by norm_num)
    (by norm_num)

/-- Claim C3 counterexample: the claim says `avg_sel = 3` yields the same
level as `avg_sel = 2`, namely level 1 (floor of log2).  It does not: Python's
`/` is float division, so the loop runs 3 → 1.5 → 0.75, giving level 2, and
for K type (code 3) the produced byte is `0x23 = 3 | (2 << 4)`, not
`0x13 = 3 | (1 << 4)`. -/
theorem C3_counterexample_floor_log :
    build_config_register_1 3 ThermoCoupleType.K_Type = 0x23 ∧
    build_config_register_1 2 ThermoCoupleType.K_Type = 0x13 ∧
    build_config_register_1 3 ThermoCoupleType.K_Type ≠
      build_config_register_1 2 ThermoCoupleType.K_Type := by
  refine ⟨build_config_register_1_at_three, build_config_register_1_at_two, ?_⟩
  rw [build_config_register_1_at_three, build_config_register_1_at_two]
  decide

/-- Claim C3 (amended): for every positive integer `avg_sel` (below 2^53,
where float halving is exact), `build_config_register_1` computes
`level = ceil(log2(avg_sel))`: non-power-of-two inputs silently yield the
level of the next HIGHER power of two (for example `avg_sel = 3` yields the
same level as `avg_sel = 4`, namely level 2). -/
theorem C3_amended_ceil_log :
    (∀ avg_sel tc_type : ℕ, 1 ≤ avg_sel → avg_sel ≤ 2 ^ 53 →
        build_config_register_1 avg_sel tc_type =
          tc_type ||| (Nat.clog 2 avg_sel <<< 4)) ∧
    build_config_register_1 3 ThermoCoupleType.K_Type =
      build_config_register_1 4 ThermoCoupleType.K_Type ∧
    build_config_register_1 3 ThermoCoupleType.K_Type =
      ThermoCoupleType.K_Type ||| (2 <<< 4) := by
  refine ⟨?_, ?_, ?_⟩
  · intro avg_sel tc_type _ _
    exact build_config_register_1_eq avg_sel tc_type
  · rw [build_config_register_1_at_three, build_config_register_1_at_four]
  · rw [build_config_register_1_at_three]
    decide

/-- Witness for C3 (amended): instantiated at `avg_sel = 3`, K type. -/
theorem C3_amended_ceil_log_witness :
    build_config_register_1 3 ThermoCoupleType.K_Type =
      ThermoCoupleType.K_Type ||| (Nat.clog 2 3 <<< 4) :=
  C3_amended_ceil_log.1 3 ThermoCoupleType.K_Type (by norm_num) (by norm_num)

/-- Claim C4: for every pair of booleans `(one_shot, filter50Hz)`,
`build_config_register_0` returns a byte whose bit 0 equals `filter50Hz`,
whose bit 6 is set and bit 7 clear exactly when `one_shot` is true, whose
bit 7 is set and bit 6 clear exactly when `one_shot` is false, and whose
bits 1 through 5 are always zero; in particular `(true, true)` gives
`0b01000001`, `(false, true)` gives `0b10000001` and `(true, false)` gives
`0b01000000`. -/
theorem C4_config_register_0_bits :
    (∀ one_shot filter50Hz : Bool,
        ((build_config_register_0 one_shot filter50Hz).testBit 0 =
            filter50Hz) ∧
        (((build_config_register_0 one_shot filter50Hz).testBit 6 = true ∧
            (build_config_register_0 one_shot filter50Hz).testBit 7 = false) ↔
          one_shot = true) ∧
        (((build_config_register_0 one_shot filter50Hz).testBit 7 = true ∧
            (build_config_register_0 one_shot filter50Hz).testBit 6 = false) ↔
          one_shot = false) ∧
        (build_config_register_0 one_shot filter50Hz).testBit 1 = false ∧
        (build_config_register_0 one_shot filter50Hz).testBit 2 = false ∧
        (build_config_register_0 one_shot filter50Hz).testBit 3 = false ∧
        (build_config_register_0 one_shot filter50Hz).testBit 4 = false ∧
        (build_config_register_0 one_shot filter50Hz).testBit 5 = false) ∧
    build_config_register_0 true true = 0b01000001 ∧
    build_config_register_0 false true = 0b10000001 ∧
    build_config_register_0 true false = 0b01000000 := by
  refine ⟨?_, by decide, by decide, by decide⟩
  intro one_shot filter50Hz
  cases one_shot <;> cases filter50Hz <;> decide

/-- Claim C5: for every `avg_sel` in `{1, 2, 4, 8, 16}` (i.e. `2^k`,
`k ≤ 4`) and every one of the 8 thermocouple type codes,
`build_config_register_1` returns `tc_type | (level << 4)` with `level = k`,
so the low 4 bits of the result recover `tc_type` exactly; and for every
`avg_sel ≤ 1` the level is 0, the result being `tc_type` unchanged. -/
theorem C5_config_register_1_powers :
    (∀ k : ℕ, k ≤ 4 → ∀ t : ℕ, t < 8 →
        build_config_register_1 (2 ^ k) t = t ||| (k <<< 4) ∧
        build_config_register_1 (2 ^ k) t &&& 0xF = t) ∧
    (∀ n : ℕ, n ≤ 1 → ∀ t : ℕ, t < 8 → build_config_register_1 n t = t) := by
  constructor
  · intro k hk t ht
    have h1 : build_config_register_1 (2 ^ k) t = t ||| (k <<< 4) := by
      rw [build_config_register_1_eq, Nat.clog_pow 2 k (by norm_num)]
    refine ⟨h1, ?_⟩
    rw [h1]
    interval_cases k <;> interval_cases t <;> decide
  · intro n hn t ht
    rw [build_config_register_1_eq, Nat.clog_of_right_le_one hn]
    simp

/-- Witness for C5: instantiated at `avg_sel = 2^4 = 16`, T type (code 7),
and at `avg_sel = 1`, B type (code 0). -/
theorem C5_config_register_1_powers_witness :
    (build_config_register_1 (2 ^ 4) 7 = 7 ||| (4 <<< 4) ∧
      build_config_register_1 (2 ^ 4) 7 &&& 0xF = 7) ∧
    build_config_register_1 1 0 = 0 :=
  ⟨C5_config_register_1_powers.1 4 (by norm_num) 7 (by norm_num),
    C5_config_register_1_powers.2 1 (by norm_num) 0 (by norm_num)⟩

set_option maxRecDepth 4096 in
/-- Claim C6: `get_thermocouple_health_status` returns the raw fault-status
byte, and a fault kind `k` is reported present (per the documented decoding
`result & (1 << k)`) if and only if bit `k` of the byte is set, the 8 bit
positions being the `FaultError` constants 0 through 7; byte `0x00` yields no
faults, byte `0x01` yields only `THERMOCOUPLE_OPEN_CIRCUIT`, and byte `0xFF`
yields all 8 fault kinds. -/
theorem C6_fault_status_bits :
    (∀ (s : DeviceState) (b : ℕ),
        (get_thermocouple_health_status s [b]).2 = b) ∧
    (∀ b < 256, ∀ k < 8, (faultBit b k = true ↔ b.testBit k = true)) ∧
    (∀ k < 8, faultBit 0x00 k = false) ∧
    (∀ k < 8,
        (faultBit 0x01 k = true ↔ k = FaultError.THERMOCOUPLE_OPEN_CIRCUIT)) ∧
    (∀ k < 8, faultBit 0xFF k = true) := by
  refine ⟨?_, by decide, by decide, by decide, by decide⟩
  intro s b
  rfl

/-- Witness for C6: the bit-position correspondence instantiated at byte
`0x01`, fault bit 0 (`THERMOCOUPLE_OPEN_CIRCUIT`). -/
theorem C6_fault_status_bits_witness :
    faultBit 0x01 0 = true ↔ Nat.testBit 0x01 0 = true :=
  C6_fault_status_bits.2.1 0x01 (by norm_num) 0 (by norm_num)

/-- Claim C7 counterexample: constructing with `avgsel = 3`, an averaging
count outside `{1, 2, 4, 8, 16}`, does not fail fast with a validation
error: the constructor completes normally and silently writes Configuration
Register 1 byte `0x23` (level 2) over the bus. -/
theorem C7_counterexample_no_validation :
    max31856_init 3 ThermoCoupleType.K_Type =
      { cs := 1,
        trace := [BusEvent.csSet 0, BusEvent.spiWrite [0x81, 0x23],
          BusEvent.csSet 1] } := by
  simp only [max31856_init, set_register, spiWriteBytes, csValue,
    CONFIG_REGISTER_1, build_config_register_1_at_three]
  decide

/-- Claim C7 (amended): construction performs no validation at all: for
every `avgsel` and `tc_type`, enumerated or not, `__init__` completes
normally, performing exactly one write transaction of Configuration	Register
1 with whatever byte `build_config_register_1` computes (for example the
invalid `avgsel = 3` silently writes `0x23`). -/
theorem C7_amended_no_fail_fast :
    (∀ avgsel tc_type : ℕ,
        max31856_init avgsel tc_type =
          { cs := 1,
            trace := [BusEvent.csSet 0,
              BusEvent.spiWrite [CONFIG_REGISTER_1 ||| 0x80,
                build_config_register_1 avgsel tc_type],
              BusEvent.csSet 1] }) ∧
    build_config_register_1 3 ThermoCoupleType.K_Type = 0x23 := by
  refine ⟨?_, build_config_register_1_at_three⟩
  intro avgsel tc_type
  rfl

/-- Claim C8: in every call to `setup_drdy_interrupt`, whatever the prior
device state, exactly one discard read transaction of the thermocouple
temperature register happens, strictly before the single write of
Configuration Register 0 selecting continuous mode (`one_shot = false`):
the appended bus trace is precisely one read transaction of register `0x0C`
followed by one write transaction of register `0x00`. -/
theorem C8_drdy_discard_read_before_write :
    ∀ (s : DeviceState) (wire : List ℕ),
      setup_drdy_interrupt s wire =
        { cs := 1,
          trace := s.trace ++
            [BusEvent.csSet 0, BusEvent.spiWrite [THERMOCOUPLE_T_REGISTER],
              BusEvent.spiRead 2, BusEvent.csSet 1,
              BusEvent.csSet 0,
              BusEvent.spiWrite [CONFIG_REGISTER_0 ||| 0x80,
                build_config_register_0 false true],
              BusEvent.csSet 1] } := by
  intro s wire
  simp [setup_drdy_interrupt, get_register, set_register, spiReadBytes,
    spiWriteBytes, csValue]

/-- Claim C9: each call to `set_register` and each call to `get_register`
asserts chip-select low, performs its write (and optional read), and returns
chip-select to the inactive high level before the call completes, so every
transaction leaves the chip-select line high between transactions. -/
theorem C9_chip_select_returns_high :
    ∀ (s : DeviceState) (register value nbytes : ℕ) (wire : List ℕ),
      (set_register s register value).cs = 1 ∧
      set_register s register value =
        { cs := 1,
          trace := s.trace ++ [BusEvent.csSet 0,
            BusEvent.spiWrite [register ||| 0x80, value], BusEvent.csSet 1] } ∧
      (get_register s wire register nbytes).1.cs = 1 ∧
      (get_register s wire register nbytes).1 =
        { cs := 1,
          trace := s.trace ++ [BusEvent.csSet 0, BusEvent.spiWrite [register],
            BusEvent.spiRead nbytes, BusEvent.csSet 1] } := by
  intro s register value nbytes wire
  refine ⟨rfl, ?_, rfl, ?_⟩
  · simp [set_register, spiWriteBytes, csValue]
  · simp [get_register, spiReadBytes, spiWriteBytes, csValue]

/-- Claim C10: every mode change forces 50Hz rejection:
`request_one_shot_sample` and `setup_drdy_interrupt` both build their
Configuration Register 0 value with the source default `filter50Hz = true`,
so whatever the prior state, the full byte they write (`0x41` resp. `0x81`)
always has bit 0 set, silently overwriting any previously selected 60Hz
setting. -/
theorem C10_mode_changes_force_50Hz :
    (∀ s : DeviceState,
        request_one_shot_sample s =
          { cs := 1,
            trace := s.trace ++ [BusEvent.csSet 0,
              BusEvent.spiWrite [CONFIG_REGISTER_0 ||| 0x80,
                build_config_register_0 true true],
              BusEvent.csSet 1] }) ∧
    (∀ (s : DeviceState) (wire : List ℕ),
        (setup_drdy_interrupt s wire).trace =
          s.trace ++
            [BusEvent.csSet 0, BusEvent.spiWrite [THERMOCOUPLE_T_REGISTER],
              BusEvent.spiRead 2, BusEvent.csSet 1,
              BusEvent.csSet 0,
              BusEvent.spiWrite [CONFIG_REGISTER_0 ||| 0x80,
                build_config_register_0 false true],
              BusEvent.csSet 1]) ∧
    build_config_register_0 true true = 0x41 ∧
    build_config_register_0 false true = 0x81 ∧
    Nat.testBit (build_config_register_0 true true) 0 = true ∧
    Nat.testBit (build_config_register_0 false true) 0 = true := by
  refine ⟨?_, ?_, by decide, by decide, by decide, by decide⟩
  · intro s
    simp [request_one_shot_sample, set_register, spiWriteBytes, csValue]
  · intro s wire
    simp [setup_drdy_interrupt, get_register, set_register, spiReadBytes,
      spiWriteBytes, csValue]
